import Mathlib

/-!
# MoguMood — station-range discovery and result-aggregation pipeline

Shallow embedding of the hard-logic core of the MoguMood repository:

* `src/lib/services/directionsService.ts` — nearest-station lookup,
  station-range expansion with routed strategy and radial fallback,
  mock branch for unconfigured API keys;
* `src/app/api/places/route.ts` — radius/station search orchestration,
  per-station restaurant fanout, deduplication and relevance ranking;
* `src/lib/services/placesService.ts` — text search, result conversion
  and the 20-entry cap;
* `src/utils/helpers.ts` — haversine distance (`calculateDistance`) and
  the shared retry wrapper (`withRetry`).

Modelling conventions:

* JavaScript numbers are embedded as `ℚ` (every double is rational); the
  transcendental haversine formula is embedded over `ℝ`, with
  `Math.round` as Mathlib's `round` (both round half toward +∞).
* `Array.prototype.sort` (ES2019+ guarantees a stable sort) is embedded
  as `jsMergeSort`, a stable top-down merge sort; for consistent
  comparators this is the unique stable result, and comparators are
  embedded as their sign via `≤ 0`.
* External HTTP calls are oracles: each service function takes an
  environment record describing the responses the outside world would
  deliver, and the functions are pure in that environment.
* Thrown JavaScript errors are `Except` values; `try/catch` becomes a
  `match` on the `Except`.
-/

/-! ## A stable merge sort that the kernel can evaluate

`Array.prototype.sort` with comparator `c` keeps `a` before `b` whenever
`c a b ≤ 0`.  We use the left-biased `List.merge` from core (which takes
from the left list on ties, hence is stable) driven by a fuel-indexed
top-down split, so every concrete sort reduces by `decide`. -/

def jsMergeGo {α : Type} (le : α → α → Bool) : ℕ → List α → List α → List α
  | 0, xs, ys => xs ++ ys
  | _ + 1, [], ys => ys
  | _ + 1, x :: xs, [] => x :: xs
  | fuel + 1, x :: xs, y :: ys =>
      if le x y then x :: jsMergeGo le fuel xs (y :: ys)
      else y :: jsMergeGo le fuel (x :: xs) ys

/-- The left-biased merge (take from the left list on ties — the stable
choice), written with explicit fuel so that the kernel can evaluate it. -/
def jsMerge {α : Type} (le : α → α → Bool) (xs ys : List α) : List α :=
  jsMergeGo le (xs.length + ys.length) xs ys

theorem jsMergeGo_eq_merge {α : Type} (le : α → α → Bool) :
    ∀ (fuel : ℕ) (xs ys : List α), xs.length + ys.length ≤ fuel →
      jsMergeGo le fuel xs ys = xs.merge ys le := by
  intro fuel
  induction fuel with
  | zero =>
      intro xs ys h
      match xs, ys with
      | [], [] => simp [jsMergeGo, List.merge]
      | x :: xs, _ => simp at h
      | [], y :: ys => simp at h
  | succ fuel ih =>
      intro xs ys h
      match xs, ys with
      | [], ys => simp [jsMergeGo, List.merge]
      | x :: xs, [] => simp [jsMergeGo, List.merge]
      | x :: xs, y :: ys =>
          simp only [List.length_cons] at h
          by_cases hle : le x y = true
          · simp only [jsMergeGo, hle, if_true, List.merge]
            rw [ih xs (y :: ys) (by simp; omega)]
          · have hle' : le x y = false := by simpa using hle
            simp only [jsMergeGo, hle', if_false, List.merge,
              Bool.false_eq_true]
            rw [ih (x :: xs) ys (by simp; omega)]

theorem jsMerge_eq_merge {α : Type} (le : α → α → Bool) (xs ys : List α) :
    jsMerge le xs ys = xs.merge ys le :=
  jsMergeGo_eq_merge le _ xs ys (Nat.le_refl _)

def msortGo {α : Type} (le : α → α → Bool) : ℕ → List α → List α
  | _, [] => []
  | _, [a] => [a]
  | 0, a :: b :: rest => a :: b :: rest
  | fuel + 1, a :: b :: rest =>
      let l := a :: b :: rest
      let n := l.length / 2
      jsMerge le (msortGo le fuel (l.take n)) (msortGo le fuel (l.drop n))

def jsMergeSort {α : Type} (le : α → α → Bool) (l : List α) : List α :=
  msortGo le l.length l

theorem msortGo_perm {α : Type} (le : α → α → Bool) :
    ∀ (fuel : ℕ) (l : List α), (msortGo le fuel l).Perm l := by
  intro fuel
  induction fuel with
  | zero =>
      intro l
      match l with
      | [] => simp [msortGo]
      | [a] => simp [msortGo]
      | a :: b :: rest => simp [msortGo]
  | succ fuel ih =>
      intro l
      match l with
      | [] => simp [msortGo]
      | [a] => simp [msortGo]
      | a :: b :: rest =>
          show (jsMerge le
              (msortGo le fuel ((a :: b :: rest).take ((a :: b :: rest).length / 2)))
              (msortGo le fuel ((a :: b :: rest).drop ((a :: b :: rest).length / 2)))).Perm
              (a :: b :: rest)
          rw [jsMerge_eq_merge]
          refine (List.perm_merge le _ _).trans ?_
          refine (List.Perm.append (ih _) (ih _)).trans ?_
          rw [List.take_append_drop]

theorem jsMergeSort_perm {α : Type} (le : α → α → Bool) (l : List α) :
    (jsMergeSort le l).Perm l :=
  msortGo_perm le l.length l

theorem msortGo_sorted {α : Type} {le : α → α → Bool}
    (htrans : ∀ a b c : α, le a b = true → le b c = true → le a c = true)
    (htotal : ∀ a b : α, le a b || le b a) :
    ∀ (fuel : ℕ) (l : List α), l.length ≤ fuel →
      List.Pairwise (fun a b => le a b = true) (msortGo le fuel l) := by
  intro fuel
  induction fuel with
  | zero =>
      intro l hlen
      match l, hlen with
      | [], _ => simp [msortGo]
  | succ fuel ih =>
      intro l hlen
      match l with
      | [] => simp [msortGo]
      | [a] => simp [msortGo]
      | a :: b :: rest =>
          have hlen2 : 2 ≤ (a :: b :: rest).length := by simp
          have htake : ((a :: b :: rest).take ((a :: b :: rest).length / 2)).length ≤ fuel := by
            rw [List.length_take]
            have h1 : (a :: b :: rest).length / 2 < (a :: b :: rest).length :=
              Nat.div_lt_self (by omega) (by omega)
            omega
          have hdrop : ((a :: b :: rest).drop ((a :: b :: rest).length / 2)).length ≤ fuel := by
            rw [List.length_drop]
            have h1 : 1 ≤ (a :: b :: rest).length / 2 := by
              have := (a :: b :: rest).length
              omega
            omega
          show List.Pairwise _ (jsMerge le _ _)
          rw [jsMerge_eq_merge]
          exact List.sorted_merge htrans htotal _ _ (ih _ htake) (ih _ hdrop)

theorem jsMergeSort_sorted {α : Type} {le : α → α → Bool}
    (htrans : ∀ a b c : α, le a b = true → le b c = true → le a c = true)
    (htotal : ∀ a b : α, le a b || le b a) (l : List α) :
    List.Pairwise (fun a b => le a b = true) (jsMergeSort le l) :=
  msortGo_sorted htrans htotal l.length l (Nat.le_refl _)

/-- Merging two halves of an already-sorted concatenation is the identity. -/
theorem merge_of_sorted_append {α : Type} {le : α → α → Bool} :
    ∀ (l₁ l₂ : List α), List.Pairwise (fun a b => le a b = true) (l₁ ++ l₂) →
      l₁.merge l₂ le = l₁ ++ l₂ := by
  intro l₁
  induction l₁ with
  | nil => intro l₂ _; simp [List.merge]
  | cons a t ih =>
      intro l₂ hsorted
      match l₂ with
      | [] => simp [List.merge]
      | b :: r =>
          have hab : le a b = true := by
            have := List.pairwise_cons.mp hsorted
            exact this.1 b (by simp)
          have htail : List.Pairwise (fun a b => le a b = true) (t ++ b :: r) :=
            (List.pairwise_cons.mp hsorted).2
          simp only [List.merge, hab, if_true, List.cons_append]
          rw [ih _ htail]

theorem msortGo_of_sorted {α : Type} {le : α → α → Bool} :
    ∀ (fuel : ℕ) (l : List α), List.Pairwise (fun a b => le a b = true) l →
      msortGo le fuel l = l := by
  intro fuel
  induction fuel with
  | zero =>
      intro l _
      match l with
      | [] => rfl
      | [a] => rfl
      | a :: b :: rest => rfl
  | succ fuel ih =>
      intro l hsorted
      match l with
      | [] => rfl
      | [a] => rfl
      | a :: b :: rest =>
          have htake : List.Pairwise (fun a b => le a b = true)
              ((a :: b :: rest).take ((a :: b :: rest).length / 2)) :=
            hsorted.sublist (List.take_sublist _ _)
          have hdrop : List.Pairwise (fun a b => le a b = true)
              ((a :: b :: rest).drop ((a :: b :: rest).length / 2)) :=
            hsorted.sublist (List.drop_sublist _ _)
          have hsplit : List.Pairwise (fun a b => le a b = true)
              ((a :: b :: rest).take ((a :: b :: rest).length / 2) ++
                (a :: b :: rest).drop ((a :: b :: rest).length / 2)) := by
            rw [List.take_append_drop]; exact hsorted
          show jsMerge le (msortGo le fuel _) (msortGo le fuel _) = _
          rw [jsMerge_eq_merge, ih _ htake, ih _ hdrop,
            merge_of_sorted_append _ _ hsplit, List.take_append_drop]

/-- Sorting a list that is already pairwise ordered by the comparator is
the identity (stability: `Array.prototype.sort` never reorders a list the
comparator considers ordered). -/
theorem jsMergeSort_of_sorted {α : Type} {le : α → α → Bool} {l : List α}
    (hsorted : List.Pairwise (fun a b => le a b = true) l) :
    jsMergeSort le l = l :=
  msortGo_of_sorted l.length l hsorted

/-- On a two-element list the sort reduces to a single comparator call,
keeping input order exactly when the comparator is `≤ 0`. -/
theorem jsMergeSort_pair {α : Type} (le : α → α → Bool) (a b : α) :
    jsMergeSort le [a, b] = if le a b then [a, b] else [b, a] := by
  by_cases h : le a b = true
  · simp [jsMergeSort, msortGo, jsMerge, jsMergeGo, h]
  · simp [jsMergeSort, msortGo, jsMerge, jsMergeGo, h]

/-! ## First-occurrence-wins deduplication by a key

Both `removeDuplicateStations` and `removeDuplicateResults` iterate with a
`Set<string>` of already-seen keys, keeping the first occurrence. -/

def jsDedupeByAux {α β : Type} [DecidableEq β] (key : α → β) :
    List α → List β → List α
  | [], _ => []
  | a :: rest, seen =>
      if key a ∈ seen then jsDedupeByAux key rest seen
      else a :: jsDedupeByAux key rest (key a :: seen)

def jsDedupeBy {α β : Type} [DecidableEq β] (key : α → β) (l : List α) : List α :=
  jsDedupeByAux key l []

theorem jsDedupeByAux_sublist {α β : Type} [DecidableEq β] (key : α → β) :
    ∀ (l : List α) (seen : List β), (jsDedupeByAux key l seen).Sublist l := by
  intro l
  induction l with
  | nil => intro seen; simp [jsDedupeByAux]
  | cons a rest ih =>
      intro seen
      by_cases h : key a ∈ seen
      · simp only [jsDedupeByAux, if_pos h]
        exact (ih seen).cons a
      · simp only [jsDedupeByAux, if_neg h]
        exact (ih (key a :: seen)).cons₂ a

theorem jsDedupeBy_sublist {α β : Type} [DecidableEq β] (key : α → β) (l : List α) :
    (jsDedupeBy key l).Sublist l :=
  jsDedupeByAux_sublist key l []

theorem jsDedupeByAux_nodup_keys {α β : Type} [DecidableEq β] (key : α → β) :
    ∀ (l : List α) (seen : List β),
      ((jsDedupeByAux key l seen).map key).Nodup ∧
        ∀ b ∈ (jsDedupeByAux key l seen).map key, b ∉ seen := by
  intro l
  induction l with
  | nil => intro seen; simp [jsDedupeByAux]
  | cons a rest ih =>
      intro seen
      by_cases h : key a ∈ seen
      · simpa only [jsDedupeByAux, if_pos h] using ih seen
      · simp only [jsDedupeByAux, if_neg h, List.map_cons, List.nodup_cons]
        obtain ⟨ihn, ihs⟩ := ih (key a :: seen)
        refine ⟨⟨fun hmem => ?_, ihn⟩, ?_⟩
        · exact (ihs _ hmem) (by simp)
        · intro b hb
          simp only [List.mem_cons] at hb
          rcases hb with hb | hb
          · subst hb; exact h
          · intro hbseen
            exact (ihs b hb) (by simp [hbseen])

/-- The deduplicated list has pairwise-distinct keys. -/
theorem jsDedupeBy_nodup_keys {α β : Type} [DecidableEq β] (key : α → β)
    (l : List α) : ((jsDedupeBy key l).map key).Nodup :=
  (jsDedupeByAux_nodup_keys key l []).1

/-- Deduplication is the identity on a list whose keys are already
pairwise distinct. -/
theorem jsDedupeBy_of_nodup_keys {α β : Type} [DecidableEq β] {key : α → β} :
    ∀ {l : List α}, (l.map key).Nodup → jsDedupeBy key l = l := by
  have aux : ∀ (l : List α) (seen : List β), (l.map key).Nodup →
      (∀ b ∈ l.map key, b ∉ seen) → jsDedupeByAux key l seen = l := by
    intro l
    induction l with
    | nil => intro seen _ _; rfl
    | cons a rest ih =>
        intro seen hnodup hdisj
        have h : key a ∉ seen := hdisj _ (by simp)
        simp only [jsDedupeByAux, if_neg h]
        congr 1
        refine ih _ (by simpa using hnodup.of_cons) ?_
        intro b hb
        simp only [List.mem_cons]
        rintro (hb1 | hb2)
        · subst hb1
          exact (List.nodup_cons.mp (by simpa using hnodup)).1 hb
        · exact hdisj b (by simp [hb]) hb2
  intro l hnodup
  exact aux l [] hnodup (by simp)

/-- JavaScript `String.prototype.includes`: substring containment. -/
def charsInfix (needle : List Char) : List Char → Bool
  | [] => needle.isEmpty
  | c :: rest => needle.isPrefixOf (c :: rest) || charsInfix needle rest

def jsIncludes (s sub : String) : Bool := charsInfix sub.toList s.toList

/-- `s.toLowerCase().includes(sub.toLowerCase())` (lower-casing applied
character-wise, which the kernel can evaluate). -/
def jsIncludesLower (s sub : String) : Bool :=
  charsInfix (sub.toList.map Char.toLower) (s.toList.map Char.toLower)

/-! ## Kernel-evaluable rational subtraction and absolute value

`Rat.sub`, `Rat.neg` and scientific literals are `irreducible` in this
toolchain, so the comparator arithmetic is written through `Rat.divInt`
(which evaluates); `qsub_eq` and `qabs_eq` identify the two forms. -/

def qsub (a b : ℚ) : ℚ :=
  Rat.divInt (a.num * b.den - b.num * a.den) (a.den * b.den)

def qabs (q : ℚ) : ℚ := if q.num < 0 then Rat.divInt (-q.num) q.den else q

theorem qsub_eq (a b : ℚ) : qsub a b = a - b := by
  rw [qsub]
  conv_rhs => rw [← Rat.num_divInt_den a, ← Rat.num_divInt_den b]
  rw [Rat.divInt_sub_divInt _ _ (by exact_mod_cast a.den_nz)
    (by exact_mod_cast b.den_nz)]

theorem qabs_eq (q : ℚ) : qabs q = |q| := by
  rw [qabs]
  by_cases h : q.num < 0
  · have hq : q < 0 := by rwa [← Rat.num_neg]
    rw [if_pos h, Rat.divInt_eq_div, abs_of_neg hq]
    push_cast
    rw [neg_div, Rat.num_div_den]
  · have hq : 0 ≤ q := by rw [← Rat.num_nonneg]; omega
    rw [if_neg h, abs_of_nonneg hq]

/-! ## GeoMath — `calculateDistance` from `src/utils/helpers.ts`

The haversine formula over `ℝ`; `Math.round` is Mathlib's `round`
(both are `⌊x + 1/2⌋`).  `Math.atan2` is the standard piecewise
definition (the source only reaches the `x ≥ 0` region since its
arguments are square roots). -/

structure Coord where
  lat : ℚ
  lng : ℚ
deriving DecidableEq, Repr

noncomputable def toRadians (degrees : ℝ) : ℝ := degrees * (Real.pi / 180)

noncomputable def atan2 (y x : ℝ) : ℝ :=
  if 0 < x then Real.arctan (y / x)
  else if x < 0 then
    (if 0 ≤ y then Real.arctan (y / x) + Real.pi else Real.arctan (y / x) - Real.pi)
  else
    (if 0 < y then Real.pi / 2 else if y < 0 then -(Real.pi / 2) else 0)

noncomputable def haversineMeters (lat1 lng1 lat2 lng2 : ℚ) : ℝ :=
  let dLat := toRadians ((lat2 : ℝ) - (lat1 : ℝ))
  let dLng := toRadians ((lng2 : ℝ) - (lng1 : ℝ))
  let a := Real.sin (dLat / 2) * Real.sin (dLat / 2) +
    Real.cos (toRadians (lat1 : ℝ)) * Real.cos (toRadians (lat2 : ℝ)) *
    Real.sin (dLng / 2) * Real.sin (dLng / 2)
  let c := 2 * atan2 (Real.sqrt a) (Real.sqrt (1 - a))
  6371 * c * 1000

noncomputable def calculateDistance (lat1 lng1 lat2 lng2 : ℚ) : ℤ :=
  round (haversineMeters lat1 lng1 lat2 lng2)

/-- The services import `calculateDistance`; the structural theorems hold
for an arbitrary distance function of the same signature. -/
abbrev DistFn : Type := ℚ → ℚ → ℚ → ℚ → ℤ

/-! ## Data model of the directions service (`directionsService.ts`) -/

structure StationInfo where
  placeId : String
  name : String
  location : Coord
  distance : ℤ
deriving DecidableEq, Repr

structure StationSearchRequest where
  location : Coord
  stationCount : ℕ
deriving DecidableEq, Repr

structure StationSearchResponse where
  nearestStation : StationInfo
  stationsInRange : List StationInfo
  status : String
deriving DecidableEq, Repr

structure ApiError where
  code : String
  message : String
deriving DecidableEq, Repr

/-- A transit stop as delivered inside a Directions API route step
(`step.transit_details.departure_stop` / `arrival_stop`); `place_id` may
be absent. -/
structure TransitStop where
  place_id : Option String
  name : String
  location : Coord
deriving DecidableEq, Repr

/-- One step of a route leg: `some (dep, arr)` for a `TRANSIT` step with
its departure and arrival stops, `none` for any other step.  A route is
the flattened list of its legs' steps (the source iterates
`route.legs[*].steps[*]`). -/
abbrev RouteStep : Type := Option (TransitStop × TransitStop)

abbrev Route : Type := List RouteStep

/-- A place returned by a nearby-search call (`data.results` entry). -/
structure Place where
  place_id : String
  name : String
  location : Coord
deriving DecidableEq, Repr

/-- Oracle for one pass of the directions service over the external
world:
* `nearby` — outcome of `findNearestStation`'s nearby-search call
  (`.error` when the fetch is not ok or the Places status is not `OK`);
* `probes i` — outcome of the `i`-th of the four directional
  Directions-API probes (`none` when the fetch failed, was not ok, had a
  non-`OK` status or no routes: all are silently skipped);
* `routedThrows` — an exception escaping the routed phase into
  `getStationsInRange`'s `catch` (per-probe and per-extraction errors
  are caught deeper down, so this is a rejected promise surfacing at the
  `await`s themselves);
* `fallbackResults` — outcome of the fallback nearby-search (`none` when
  the response is not ok, has a non-`OK` status or missing results). -/
structure DirectionsEnv where
  nearby : Except ApiError (List Place)
  probes : Fin 4 → Option Route
  routedThrows : Bool
  fallbackResults : Option (List Place)

/-- `createStationInfoFromTransitStop`: `place_id || ''`, distance left
as the tentative `0` ("後で計算" — to compute later).  The `try/catch`
cannot fire on well-formed data, hence the `Option` is always `some`. -/
def createStationInfoFromTransitStop (transitStop : TransitStop) :
    Option StationInfo :=
  some { placeId := transitStop.place_id.getD ""
         name := transitStop.name
         location := transitStop.location
         distance := 0 }

/-- `extractStationsFromRoute`: walk the route's transit steps, pushing
each departure and arrival stop while fewer than `maxStations` have been
collected. -/
def extractStationsGo (maxStations : ℕ) :
    Route → List StationInfo → List StationInfo
  | [], acc => acc
  | none :: rest, acc => extractStationsGo maxStations rest acc
  | some (dep, arr) :: rest, acc =>
      let acc1 := if acc.length < maxStations then
        acc ++ (createStationInfoFromTransitStop dep).toList else acc
      let acc2 := if acc1.length < maxStations then
        acc1 ++ (createStationInfoFromTransitStop arr).toList else acc1
      extractStationsGo maxStations rest acc2

def extractStationsFromRoute (route : Route) (maxStations : ℕ) :
    List StationInfo :=
  extractStationsGo maxStations route []

/-- `getDirectionsFromStation`: the four directional probes in order;
failed probes contribute nothing. -/
def getDirectionsFromStation (env : DirectionsEnv) : List Route :=
  ((List.finRange 4).map env.probes).reduceOption

/-- The dedup key of `removeDuplicateStations`:
`station.placeId || `${name}_${lat}_${lng}``  — the empty `placeId` is
falsy, so it falls back to the synthesized key (modelled as a tuple; JS
number formatting is injective on the values that occur). -/
def stationKey (station : StationInfo) : String ⊕ (String × Coord) :=
  if station.placeId ≠ "" then Sum.inl station.placeId
  else Sum.inr (station.name, station.location)

/-- `removeDuplicateStations`: first-occurrence dedup by `stationKey`,
then `sort((a, b) => a.distance - b.distance)`. -/
def removeDuplicateStations (stations : List StationInfo) : List StationInfo :=
  jsMergeSort (fun a b => decide (a.distance ≤ b.distance))
    (jsDedupeBy stationKey stations)

/-- `fallbackStationSearch`: nearby-search for stations around the start;
on any failure just `[centerStation]`, otherwise the start followed by up
to `stationCount` results that are not the start itself (distance
computed via `calculateDistance`), capped at `stationCount + 1`. -/
def fallbackStationSearch (calcDist : DistFn) (env : DirectionsEnv)
    (centerStation : StationInfo) (stationCount : ℕ) : List StationInfo :=
  match env.fallbackResults with
  | none => [centerStation]
  | some results =>
      let extras := ((results.take stationCount).filter
        (fun place => place.place_id ≠ centerStation.placeId)).map
        (fun place =>
          { placeId := place.place_id
            name := place.name
            location := place.location
            distance := calcDist centerStation.location.lat
              centerStation.location.lng place.location.lat place.location.lng })
      (centerStation :: extras).take (stationCount + 1)

/-- `getStationsInRange`: routed expansion (start station pushed first,
then every extracted stop of every successful probe), deduplicated,
sorted by stored distance and capped at `stationCount + 1`; the fallback
runs only when the routed phase throws. -/
def getStationsInRange (calcDist : DistFn) (env : DirectionsEnv)
    (startStation : StationInfo) (stationCount : ℕ) : List StationInfo :=
  if env.routedThrows then
    fallbackStationSearch calcDist env startStation stationCount
  else
    let stations := startStation :: (getDirectionsFromStation env).flatMap
      (fun route => extractStationsFromRoute route stationCount)
    (removeDuplicateStations stations).take (stationCount + 1)

/-- `findNearestStation`: nearby-search, `INVALID_REQUEST` when it
returns no results, else the first result with its distance computed via
`calculateDistance`. -/
def findNearestStation (calcDist : DistFn) (env : DirectionsEnv)
    (location : Coord) : Except ApiError StationInfo :=
  match env.nearby with
  | .error e => .error e
  | .ok results =>
      match results with
      | [] => .error { code := "INVALID_REQUEST"
                       message := "近くに駅が見つかりませんでした" }
      | nearestPlace :: _ =>
          .ok { placeId := nearestPlace.place_id
                name := nearestPlace.name
                location := nearestPlace.location
                distance := calcDist location.lat location.lng
                  nearestPlace.location.lat nearestPlace.location.lng }

/-- `getMockStationResponse`: the fixed mock data returned for
unconfigured API keys (渋谷駅 200 m, 新宿駅 1500 m, 原宿駅 800 m). -/
def getMockStationResponse (request : StationSearchRequest) :
    StationSearchResponse :=
  let mockNearestStation : StationInfo :=
    { placeId := "mock_station_1"
      name := "渋谷駅"
      location := { lat := request.location.lat + 0.001
                    lng := request.location.lng + 0.001 }
      distance := 200 }
  let mockStations : List StationInfo :=
    [mockNearestStation,
     { placeId := "mock_station_2"
       name := "新宿駅"
       location := { lat := request.location.lat + 0.01
                     lng := request.location.lng - 0.005 }
       distance := 1500 },
     { placeId := "mock_station_3"
       name := "原宿駅"
       location := { lat := request.location.lat - 0.005
                     lng := request.location.lng + 0.008 }
       distance := 800 }]
  { nearestStation := mockNearestStation
    stationsInRange := mockStations.take (request.stationCount + 1)
    status := "OK" }

/-! ## `withRetry` from `src/utils/helpers.ts`

The loop runs `attempt = 1 .. maxAttempts`; every caught error is
remembered, and unless the attempt was the last one the loop sleeps
`delay * 2 ^ (attempt - 1)` ms and tries again.  No error class is ever
inspected.  The embedding returns the final outcome together with the
number of attempts made and the list of back-off waits; `.error none`
is JavaScript's `throw lastError!` with `lastError` still `undefined`
(reachable only for `maxAttempts = 0`). -/

deriving instance DecidableEq for Except

structure RetryTrace (E α : Type) where
  result : Except (Option E) α
  attempts : ℕ
  waits : List ℕ
deriving DecidableEq, Repr

def runRetryGo {E α : Type} (fn : ℕ → Except E α) (delay : ℕ) :
    ℕ → ℕ → RetryTrace E α
  | _, 0 => { result := .error none, attempts := 0, waits := [] }
  | attempt, fuel + 1 =>
      match fn attempt with
      | .ok v => { result := .ok v, attempts := 1, waits := [] }
      | .error e =>
          match fuel with
          | 0 => { result := .error (some e), attempts := 1, waits := [] }
          | fuel' + 1 =>
              let rest := runRetryGo fn delay (attempt + 1) (fuel' + 1)
              { result := rest.result
                attempts := rest.attempts + 1
                waits := delay * 2 ^ (attempt - 1) :: rest.waits }

/-- `withRetry(fn, maxAttempts, delay)` as a trace. -/
def runRetry {E α : Type} (fn : ℕ → Except E α) (maxAttempts : ℕ)
    (delay : ℕ) : RetryTrace E α :=
  runRetryGo fn delay 1 maxAttempts

/-- `searchStationsInRange`: mock branch for test/unconfigured keys,
otherwise `withRetry(find nearest, expand, 3, 1000)`.  The environment is
indexed by attempt number since each retry re-issues the external calls. -/
def searchAttempt (calcDist : DistFn) (envs : ℕ → DirectionsEnv)
    (request : StationSearchRequest) (attempt : ℕ) :
    Except ApiError StationSearchResponse :=
  match findNearestStation calcDist (envs attempt) request.location with
  | .error e => .error e
  | .ok nearestStation =>
      .ok { nearestStation := nearestStation
            stationsInRange := getStationsInRange calcDist (envs attempt)
              nearestStation request.stationCount
            status := "OK" }

def searchStationsInRange (calcDist : DistFn) (apiKey : String)
    (envs : ℕ → DirectionsEnv) (request : StationSearchRequest) :
    Except (Option ApiError) StationSearchResponse :=
  if apiKey = "test_key" ∨ apiKey = "" ∨ apiKey.length < 10 then
    .ok (getMockStationResponse request)
  else
    (runRetry (searchAttempt calcDist envs request) 3 1000).result

/-! ## Restaurant search (`src/app/api/places/route.ts` and
`placesService.ts`) -/

/-- `RestaurantResult` from `src/types/restaurant.ts`; `distance` and
`nearestStation` are the two optional fields used by the ranking and the
fanout annotation. -/
structure RestaurantResult where
  placeId : String
  name : String
  rating : ℚ
  priceLevel : ℕ
  types : List String
  vicinity : String
  photos : List String
  distance : Option ℚ
  nearestStation : Option String
  googleMapsUrl : String
deriving DecidableEq, Repr

structure PlacesSearchResponse where
  results : List RestaurantResult
  status : String
deriving DecidableEq, Repr

/-- `removeDuplicateResults`: first-occurrence dedup by `placeId`. -/
def removeDuplicateResults (results : List RestaurantResult) :
    List RestaurantResult :=
  jsDedupeBy (fun result => result.placeId) results

/-- The comparator of `sortResultsByRelevance` (its return sign):
rating differences above 0.1 decide (higher rating first), then distance
differences above 100 m decide (closer first), then a case-insensitive
containment of the whole `query` string in the name breaks the tie. -/
def compareByRelevance (query : String) (a b : RestaurantResult) : ℚ :=
  let ratingDiff := qsub b.rating a.rating
  if qabs ratingDiff > Rat.divInt 1 10 then ratingDiff
  else
    let distanceDiff := qsub (a.distance.getD 0) (b.distance.getD 0)
    if qabs distanceDiff > 100 then distanceDiff
    else
      let aNameMatch := jsIncludesLower a.name query
      let bNameMatch := jsIncludesLower b.name query
      if aNameMatch && !bNameMatch then Rat.divInt (-1) 1
      else if !aNameMatch && bNameMatch then 1
      else 0

def relevanceLe (query : String) (a b : RestaurantResult) : Bool :=
  decide (compareByRelevance query a b ≤ 0)

/-- `sortResultsByRelevance`. -/
def sortResultsByRelevance (results : List RestaurantResult)
    (query : String) : List RestaurantResult :=
  jsMergeSort (relevanceLe query) results

/-- The aggregation tail of `searchByStations`: dedup, rank, cap at 20. -/
def aggregateResults (query : String) (results : List RestaurantResult) :
    List RestaurantResult :=
  (sortResultsByRelevance (removeDuplicateResults results) query).take 20

/-- The per-station loop of `searchByStations` (lines 248–273):
`processedStations` only holds raw `placeId` strings, a station's id is
added *before* its search is attempted, a failed search is caught and
contributes nothing, and a successful search's hits get
`nearestStation := station.name`. -/
def fanoutGo (searchFn : StationInfo → Except ApiError (List RestaurantResult)) :
    List StationInfo → List String → List RestaurantResult
  | [], _ => []
  | station :: rest, processedStations =>
      if station.placeId ∈ processedStations then
        fanoutGo searchFn rest processedStations
      else
        let processedStations' := station.placeId :: processedStations
        match searchFn station with
        | .error _ => fanoutGo searchFn rest processedStations'
        | .ok stationResults =>
            (stationResults.map (fun result =>
              { result with nearestStation := some station.name })) ++
              fanoutGo searchFn rest processedStations'

def fanoutStations
    (searchFn : StationInfo → Except ApiError (List RestaurantResult))
    (stations : List StationInfo) : List RestaurantResult :=
  fanoutGo searchFn stations []

/-- The body of `searchByStations` applied to a known station list:
fanout, then dedup + relevance ranking + `slice(0, 20)`. -/
def searchByStationsCore
    (searchFn : StationInfo → Except ApiError (List RestaurantResult))
    (stations : List StationInfo) (query : String) : List RestaurantResult :=
  aggregateResults query (fanoutStations searchFn stations)

structure ExtendedPlacesSearchRequest where
  location : Coord
  query : String
  radius : Option ℚ
  stationCount : Option ℕ
deriving DecidableEq, Repr

/-- `searchByStations` end to end: `!request.stationCount` throws
`INVALID_REQUEST` (`0` is falsy), then the station search runs and its
`stationsInRange` drives the fanout. -/
def searchByStations (calcDist : DistFn) (apiKey : String)
    (envs : ℕ → DirectionsEnv)
    (searchFn : StationInfo → Except ApiError (List RestaurantResult))
    (request : ExtendedPlacesSearchRequest) :
    Except (Option ApiError) PlacesSearchResponse :=
  if request.stationCount.getD 0 = 0 then
    .error (some { code := "INVALID_REQUEST", message := "駅数が指定されていません" })
  else
    match searchStationsInRange calcDist apiKey envs
      { location := request.location
        stationCount := request.stationCount.getD 0 } with
    | .error e => .error e
    | .ok stationResponse =>
        .ok { results := searchByStationsCore searchFn
                stationResponse.stationsInRange request.query
              status := "OK" }

/-! ## `placesService.ts` — text search feeding the radius mode -/

/-- `GooglePlace` (the fields the conversion reads); `photos` stands for
the photo references that `getPhotoUrl` turns into URLs. -/
structure GooglePlace where
  place_id : String
  name : String
  rating : Option ℚ
  price_level : Option ℕ
  types : List String
  vicinity : String
  photos : List String
  location : Coord
deriving DecidableEq, Repr

def PLACES_API_MAX_RESULTS : ℕ := 20

/-- `generateGoogleMapsUrl` (URL parameter encoding elided). -/
def generateGoogleMapsUrl (name placeId : String) : String :=
  "https://www.google.com/maps/search/?api=1&query=" ++ name ++
    "&query_place_id=" ++ placeId

/-- `convertToRestaurantResult`: `rating || 0`, `price_level || 0`, first
three photos, distance via `calculateDistance` from the user location. -/
def convertToRestaurantResult (calcDist : DistFn) (userLocation : Coord)
    (place : GooglePlace) : RestaurantResult :=
  { placeId := place.place_id
    name := place.name
    rating := place.rating.getD 0
    priceLevel := place.price_level.getD 0
    types := place.types
    vicinity := place.vicinity
    photos := place.photos.take 3
    distance := some ((calcDist userLocation.lat userLocation.lng
      place.location.lat place.location.lng : ℤ) : ℚ)
    nearestStation := none
    googleMapsUrl := generateGoogleMapsUrl place.name place.place_id }

/-- `processSearchResults`: keep the first `MAX_RESULTS` (20) places,
convert each (the per-place `try/catch` cannot fire on well-formed
data), sort ascending by computed distance.  No deduplication happens
anywhere in this service. -/
def processSearchResults (calcDist : DistFn) (places : List GooglePlace)
    (userLocation : Coord) : List RestaurantResult :=
  jsMergeSort (fun a b => decide (a.distance.getD 0 ≤ b.distance.getD 0))
    ((places.take PLACES_API_MAX_RESULTS).map
      (convertToRestaurantResult calcDist userLocation))

/-- `getMockPlacesResponse`: three fixed results filtered by the query,
falling back to all three when the filter empties the list. -/
def getMockPlacesResponse (query : String) : PlacesSearchResponse :=
  let mockResults : List RestaurantResult :=
    [{ placeId := "mock_place_1", name := "テストラーメン店", rating := 4.5
       priceLevel := 2, types := ["restaurant", "food"]
       vicinity := "東京都渋谷区テスト1-1-1", photos := [], distance := some 300
       nearestStation := none
       googleMapsUrl := generateGoogleMapsUrl "テストラーメン店" "mock_place_1" },
     { placeId := "mock_place_2", name := "テストカフェ", rating := 4.2
       priceLevel := 1, types := ["cafe", "food"]
       vicinity := "東京都渋谷区テスト2-2-2", photos := [], distance := some 500
       nearestStation := none
       googleMapsUrl := generateGoogleMapsUrl "テストカフェ" "mock_place_2" },
     { placeId := "mock_place_3", name := "テスト定食屋", rating := 4.0
       priceLevel := 1, types := ["restaurant", "meal_takeaway"]
       vicinity := "東京都渋谷区テスト3-3-3", photos := [], distance := some 800
       nearestStation := none
       googleMapsUrl := generateGoogleMapsUrl "テスト定食屋" "mock_place_3" }]
  let filteredResults := mockResults.filter (fun result =>
    jsIncludes result.name query || jsIncludes query "レストラン" ||
      jsIncludes query "定食")
  { results := if filteredResults.length > 0 then filteredResults else mockResults
    status := "OK" }

/-- Oracle for one text-search HTTP round trip: the Places status string
together with `data.results || []` (`.error` is a not-ok response, whose
`handleHttpError` value it carries). -/
abbrev TextSearchEnv : Type := ℕ → Except ApiError (String × List GooglePlace)

def searchByTextAttempt (calcDist : DistFn) (env : TextSearchEnv)
    (location : Coord) (attempt : ℕ) :
    Except ApiError PlacesSearchResponse :=
  match env attempt with
  | .error e => .error e
  | .ok (status, results) =>
      if status ≠ "OK" ∧ status ≠ "ZERO_RESULTS" then
        .error { code := "UNKNOWN_ERROR", message := status }
      else
        .ok { results := processSearchResults calcDist results location
              status := status }

/-- `searchByText` (hence the exported `searchRestaurantsByText`): mock
branch for test/unconfigured keys, otherwise `withRetry(fetch, 3, 1000)`.
The `radius` argument only reaches the request URL. -/
def searchByText (calcDist : DistFn) (apiKey : String) (env : TextSearchEnv)
    (query : String) (location : Coord) (radius : Option ℚ) :
    Except (Option ApiError) PlacesSearchResponse :=
  if apiKey = "test_key" ∨ apiKey = "" ∨ apiKey.length < 10 then
    .ok (getMockPlacesResponse query)
  else
    (runRetry (searchByTextAttempt calcDist env location) 3 1000).result

/-- `searchByRadius` from `src/app/api/places/route.ts`: a single
delegation to `searchRestaurantsByText`; the collaborator's response is
returned as-is, with no aggregation step. -/
def searchByRadius (calcDist : DistFn) (apiKey : String)
    (env : TextSearchEnv) (request : ExtendedPlacesSearchRequest) :
    Except (Option ApiError) PlacesSearchResponse :=
  searchByText calcDist apiKey env request.query request.location request.radius

/-! ## Helper lemmas -/

/-- `withRetry` with the services' parameters (3 attempts, 1000 ms),
fully case-analysed: the outcome of each attempt alone determines the
trace; no error field is ever consulted. -/
theorem runRetry3 {α : Type} (fn : ℕ → Except ApiError α) :
    runRetry fn 3 1000 =
      match fn 1 with
      | .ok v => { result := .ok v, attempts := 1, waits := [] }
      | .error _ =>
        match fn 2 with
        | .ok v => { result := .ok v, attempts := 2, waits := [1000] }
        | .error _ =>
          match fn 3 with
          | .ok v => { result := .ok v, attempts := 3, waits := [1000, 2000] }
          | .error e₃ =>
              { result := .error (some e₃), attempts := 3
                waits := [1000, 2000] } := by
  cases h1 : fn 1 with
  | ok v => simp [runRetry, runRetryGo, h1]
  | error e1 =>
      cases h2 : fn 2 with
      | ok v => simp [runRetry, runRetryGo, h1, h2]
      | error e2 =>
          cases h3 : fn 3 with
          | ok v => simp [runRetry, runRetryGo, h1, h2, h3]
          | error e3 => simp [runRetry, runRetryGo, h1, h2, h3]

/-! ## Claim C8 — retry policy -/

/-- C8 (amended): the shared retry wrapper makes up to 3 attempts with
exponential backoff 1000 ms, 2000 ms, regardless of the failure class:
a first-attempt success returns immediately, and when every attempt
fails — transient or not — the last error is propagated only after the
third attempt.  `searchStationsInRange` wraps its attempt in exactly
this policy (`withRetry(fn, 3, 1000)`). -/
theorem c8_retry_policy {α : Type} (fn : ℕ → Except ApiError α) :
    (runRetry fn 3 1000).attempts ≤ 3 ∧
    (runRetry fn 3 1000).waits =
      (List.range ((runRetry fn 3 1000).attempts - 1)).map
        (fun i => 1000 * 2 ^ i) ∧
    (∀ v : α, fn 1 = .ok v →
      (runRetry fn 3 1000).result = .ok v ∧
      (runRetry fn 3 1000).attempts = 1) ∧
    (∀ e₁ e₂ e₃ : ApiError, fn 1 = .error e₁ → fn 2 = .error e₂ →
      fn 3 = .error e₃ →
      (runRetry fn 3 1000).result = .error (some e₃) ∧
      (runRetry fn 3 1000).attempts = 3 ∧
      (runRetry fn 3 1000).waits = [1000, 2000]) ∧
    (∀ (calcDist : DistFn) (apiKey : String) (envs : ℕ → DirectionsEnv)
      (request : StationSearchRequest),
      ¬(apiKey = "test_key" ∨ apiKey = "" ∨ apiKey.length < 10) →
      searchStationsInRange calcDist apiKey envs request =
        (runRetry (searchAttempt calcDist envs request) 3 1000).result) := by
  rw [runRetry3 fn]
  refine ⟨?_, ?_, ?_, ?_, ?_⟩
  · cases h1 : fn 1 with
    | ok v => simp
    | error e1 =>
        cases h2 : fn 2 with
        | ok v => simp
        | error e2 => cases h3 : fn 3 <;> simp
  · cases h1 : fn 1 with
    | ok v => simp
    | error e1 =>
        cases h2 : fn 2 with
        | ok v => simp [List.range_succ]
        | error e2 => cases h3 : fn 3 <;> simp [List.range_succ]
  · intro v hv
    simp [hv]
  · intro e₁ e₂ e₃ h1 h2 h3
    simp [h1, h2, h3]
  · intro calcDist apiKey envs request hkey
    simp [searchStationsInRange, if_neg hkey, runRetry3]

/-- C8 witness: a non-transient `INVALID_REQUEST` failure on every
attempt still produces three attempts and the 1 s/2 s waits. -/
theorem c8_retry_policy_witness :
    (runRetry (fun _ => (.error { code := "INVALID_REQUEST", message := "bad" } :
        Except ApiError ℕ)) 3 1000).result =
      .error (some { code := "INVALID_REQUEST", message := "bad" }) ∧
    (runRetry (fun _ => (.error { code := "INVALID_REQUEST", message := "bad" } :
        Except ApiError ℕ)) 3 1000).attempts = 3 ∧
    (runRetry (fun _ => (.error { code := "INVALID_REQUEST", message := "bad" } :
        Except ApiError ℕ)) 3 1000).waits = [1000, 2000] :=
  (c8_retry_policy _).2.2.2.1 _ _ _ rfl rfl rfl

/-- C8 counterexample: the claim says a non-transient failure
(`INVALID_REQUEST`) is propagated immediately after the first attempt
with no retry; the wrapper actually makes 3 attempts with 2 waits. -/
theorem c8_counterexample :
    (runRetry (fun _ => (.error { code := "INVALID_REQUEST", message := "bad" } :
        Except ApiError Unit)) 3 1000).attempts = 3 ∧
    ¬((runRetry (fun _ => (.error { code := "INVALID_REQUEST", message := "bad" } :
        Except ApiError Unit)) 3 1000).attempts = 1) ∧
    ¬((runRetry (fun _ => (.error { code := "INVALID_REQUEST", message := "bad" } :
        Except ApiError Unit)) 3 1000).waits = []) := by
  decide

/-! ## Claim C10 — mock branch of `searchStationsInRange` -/

/-- C10: with the literal `test_key`, an empty key, or any key shorter
than 10 characters, `searchStationsInRange` consults no external oracle
and returns the fixed mock response: nearest station 渋谷駅 at distance
200, and `stationsInRange` the first `stationCount + 1` of three fixed
stations with distances 200, 1500, 800 — hence not ascending once
`stationCount ≥ 2`. -/
theorem c10_mock_response (calcDist : DistFn) (apiKey : String)
    (envs envs' : ℕ → DirectionsEnv) (request : StationSearchRequest)
    (hkey : apiKey = "test_key" ∨ apiKey = "" ∨ apiKey.length < 10) :
    searchStationsInRange calcDist apiKey envs request =
      .ok (getMockStationResponse request) ∧
    searchStationsInRange calcDist apiKey envs request =
      searchStationsInRange calcDist apiKey envs' request ∧
    (getMockStationResponse request).nearestStation.name = "渋谷駅" ∧
    (getMockStationResponse request).nearestStation.distance = 200 ∧
    (getMockStationResponse request).stationsInRange.map
        (fun s => s.distance) =
      ([200, 1500, 800] : List ℤ).take (request.stationCount + 1) ∧
    (2 ≤ request.stationCount →
      (getMockStationResponse request).stationsInRange.map
          (fun s => s.distance) = [200, 1500, 800] ∧
      ¬ List.Pairwise (fun a b : ℤ => a ≤ b)
        ((getMockStationResponse request).stationsInRange.map
          (fun s => s.distance))) := by
  have hmap : (getMockStationResponse request).stationsInRange.map
      (fun s => s.distance) =
      ([200, 1500, 800] : List ℤ).take (request.stationCount + 1) := by
    simp [getMockStationResponse, List.map_take]
  refine ⟨by simp [searchStationsInRange, hkey], by simp [searchStationsInRange, hkey],
    rfl, rfl, hmap, ?_⟩
  intro h2
  have htake : ([200, 1500, 800] : List ℤ).take (request.stationCount + 1) =
      [200, 1500, 800] := List.take_of_length_le (by simp; omega)
  rw [hmap, htake]
  refine ⟨rfl, ?_⟩
  intro hpair
  have := (List.pairwise_cons.mp (List.pairwise_cons.mp hpair).2).1 800 (by simp)
  omega

/-- C10 witness: `test_key` with `stationCount = 2` over two different
oracles. -/
theorem c10_mock_response_witness :
    searchStationsInRange calculateDistance "test_key"
        (fun _ => ⟨.ok [], fun _ => none, false, none⟩)
        { location := { lat := 0, lng := 0 }, stationCount := 2 } =
      .ok (getMockStationResponse
        { location := { lat := 0, lng := 0 }, stationCount := 2 }) ∧
    (getMockStationResponse
        { location := { lat := 0, lng := 0 }, stationCount := 2 }).stationsInRange.map
        (fun s => s.distance) = [200, 1500, 800] :=
  ⟨(c10_mock_response calculateDistance "test_key" _
      (fun _ => ⟨.ok [], fun _ => none, false, none⟩) _ (Or.inl rfl)).1,
    by decide⟩

/-- The annotated contribution of one station: nothing when its search
throws, its hits tagged with the station name when it succeeds. -/
def stationContribution
    (searchFn : StationInfo → Except ApiError (List RestaurantResult))
    (station : StationInfo) : List RestaurantResult :=
  match searchFn station with
  | .error _ => []
  | .ok stationResults =>
      stationResults.map (fun result =>
        { result with nearestStation := some station.name })

theorem fanoutGo_congr
    {searchFn searchFn' : StationInfo → Except ApiError (List RestaurantResult)} :
    ∀ (stations : List StationInfo) (processed : List String),
      (∀ s ∈ stations, searchFn s = searchFn' s) →
      fanoutGo searchFn stations processed =
        fanoutGo searchFn' stations processed := by
  intro stations
  induction stations with
  | nil => intro processed _; rfl
  | cons station rest ih =>
      intro processed hagree
      have hs : searchFn station = searchFn' station := hagree _ (by simp)
      have hrest : ∀ s ∈ rest, searchFn s = searchFn' s :=
        fun s hs' => hagree s (by simp [hs'])
      by_cases hmem : station.placeId ∈ processed
      · simp only [fanoutGo, if_pos hmem]
        exact ih _ hrest
      · simp only [fanoutGo, if_neg hmem, ← hs]
        cases hfn : searchFn station with
        | error e => exact ih _ hrest
        | ok rs => rw [ih _ hrest]

theorem fanoutGo_dedupe
    (searchFn : StationInfo → Except ApiError (List RestaurantResult)) :
    ∀ (stations : List StationInfo) (processed : List String),
      fanoutGo searchFn stations processed =
        fanoutGo searchFn
          (jsDedupeByAux (fun s => s.placeId) stations processed) processed := by
  intro stations
  induction stations with
  | nil => intro processed; rfl
  | cons station rest ih =>
      intro processed
      by_cases hmem : station.placeId ∈ processed
      · simp only [fanoutGo, jsDedupeByAux, if_pos hmem]
        exact ih processed
      · simp only [fanoutGo, jsDedupeByAux, if_neg hmem]
        cases hfn : searchFn station with
        | error e => exact ih _
        | ok rs => rw [ih _]

theorem fanoutGo_flatMap
    (searchFn : StationInfo → Except ApiError (List RestaurantResult)) :
    ∀ (stations : List StationInfo) (processed : List String),
      ((stations.map (fun s => s.placeId)).Nodup) →
      (∀ s ∈ stations, s.placeId ∉ processed) →
      fanoutGo searchFn stations processed =
        stations.flatMap (stationContribution searchFn) := by
  intro stations
  induction stations with
  | nil => intro processed _ _; rfl
  | cons station rest ih =>
      intro processed hnodup hdisj
      have hmem : station.placeId ∉ processed := hdisj _ (by simp)
      have hpair : (∀ x ∈ rest, ¬x.placeId = station.placeId) ∧
          (rest.map (fun s => s.placeId)).Nodup := by simpa using hnodup
      have hnodup' : (rest.map (fun s => s.placeId)).Nodup := hpair.2
      have hdisj' : ∀ s ∈ rest, s.placeId ∉ station.placeId :: processed := by
        intro s hs
        simp only [List.mem_cons]
        rintro (h | h)
        · exact hpair.1 s hs h
        · exact hdisj s (by simp [hs]) h
      simp only [fanoutGo, if_neg hmem, List.flatMap_cons]
      cases hfn : searchFn station with
      | error e =>
          rw [ih _ hnodup' hdisj']
          simp [stationContribution, hfn]
      | ok rs =>
          rw [ih _ hnodup' hdisj']
          simp [stationContribution, hfn]

/-- The fanout over any station list equals the fanout over its raw
`placeId` dedup, as a flat concatenation of per-station contributions. -/
theorem fanoutStations_eq_flatMap
    (searchFn : StationInfo → Except ApiError (List RestaurantResult))
    (stations : List StationInfo) :
    fanoutStations searchFn stations =
      (jsDedupeBy (fun s => s.placeId) stations).flatMap
        (stationContribution searchFn) := by
  rw [fanoutStations, fanoutGo_dedupe searchFn stations []]
  exact fanoutGo_flatMap searchFn _ []
    (jsDedupeBy_nodup_keys _ stations) (by simp)

theorem flatMap_congr_mem {α β : Type} {f g : α → List β} :
    ∀ {l : List α}, (∀ x ∈ l, f x = g x) → l.flatMap f = l.flatMap g := by
  intro l
  induction l with
  | nil => intro _; rfl
  | cons a rest ih =>
      intro h
      simp only [List.flatMap_cons, h a (by simp), ih (fun x hx => h x (by simp [hx]))]

/-! ## Claim C9 — already-processed check uses the raw placeId -/

/-- C9: the fanout's already-processed check is by the raw `placeId`
string alone (not the synthesized name+coordinate identity of the
station dedup): the fanout over any station list equals the fanout over
its first-wins dedup by raw `placeId`, and the result depends on the
search collaborator only at those deduped stations — every later station
sharing a `placeId` (in particular the empty string given to stops
without a `place_id`) is never searched and contributes no hits. -/
theorem c9_duplicate_placeid_skip
    (searchFn searchFn' : StationInfo → Except ApiError (List RestaurantResult))
    (stations : List StationInfo) :
    fanoutStations searchFn stations =
      fanoutStations searchFn (jsDedupeBy (fun s => s.placeId) stations) ∧
    ((∀ s ∈ jsDedupeBy (fun s => s.placeId) stations, searchFn s = searchFn' s) →
      fanoutStations searchFn stations = fanoutStations searchFn' stations) := by
  constructor
  · rw [fanoutStations_eq_flatMap, fanoutStations_eq_flatMap,
      jsDedupeBy_of_nodup_keys (jsDedupeBy_nodup_keys _ stations)]
  · intro hagree
    rw [fanoutStations_eq_flatMap, fanoutStations_eq_flatMap]
    exact flatMap_congr_mem (fun s hs => by
      simp only [stationContribution, hagree s hs])

/-- C9 witness: two distinct stations that both carry the empty
`placeId`; only the first is consulted, so changing the collaborator's
answer at the second changes nothing, and the aggregate holds only the
first station's hit. -/
theorem c9_duplicate_placeid_skip_witness :
    fanoutStations
        (fun s => if s.name = "B公園前" then
          .ok [{ placeId := "r2", name := "店2", rating := 4, priceLevel := 1
                 types := [], vicinity := "", photos := [], distance := none
                 nearestStation := none, googleMapsUrl := "" }]
        else
          .ok [{ placeId := "r1", name := "店1", rating := 4, priceLevel := 1
                 types := [], vicinity := "", photos := [], distance := none
                 nearestStation := none, googleMapsUrl := "" }])
        [{ placeId := "", name := "A商店街前", location := { lat := 1, lng := 1 }, distance := 0 },
         { placeId := "", name := "B公園前", location := { lat := 2, lng := 2 }, distance := 0 }] =
      fanoutStations
        (fun _ =>
          .ok [{ placeId := "r1", name := "店1", rating := 4, priceLevel := 1
                 types := [], vicinity := "", photos := [], distance := none
                 nearestStation := none, googleMapsUrl := "" }])
        [{ placeId := "", name := "A商店街前", location := { lat := 1, lng := 1 }, distance := 0 },
         { placeId := "", name := "B公園前", location := { lat := 2, lng := 2 }, distance := 0 }] :=
  (c9_duplicate_placeid_skip _ _ _).2 (by decide)

/-! ## Claim C4 — partial failure tolerance of the station fanout -/

/-- C4: when some of the per-station searches fail, the fanout is the
flat concatenation of the succeeding stations' annotated hits (failing
stations contribute nothing), `searchByStations`' result list is the
aggregation of exactly those hits, and every final hit originates from a
succeeding station and carries that station's name. -/
theorem c4_partial_failure_tolerance
    (searchFn : StationInfo → Except ApiError (List RestaurantResult))
    (stations : List StationInfo) (query : String)
    (hnodup : (stations.map (fun s => s.placeId)).Nodup)
    (hfail : ∃ s ∈ stations, (searchFn s).isOk = false)
    (hsucc : ∃ s ∈ stations, (searchFn s).isOk = true) :
    fanoutStations searchFn stations =
      stations.flatMap (stationContribution searchFn) ∧
    searchByStationsCore searchFn stations query =
      aggregateResults query (stations.flatMap (stationContribution searchFn)) ∧
    (∀ s ∈ stations, (searchFn s).isOk = false →
      stationContribution searchFn s = []) ∧
    (∀ r ∈ searchByStationsCore searchFn stations query,
      ∃ s ∈ stations, ∃ stationResults, searchFn s = .ok stationResults ∧
        ∃ r₀ ∈ stationResults,
          r = { r₀ with nearestStation := some s.name }) := by
  have hflat : fanoutStations searchFn stations =
      stations.flatMap (stationContribution searchFn) := by
    rw [fanoutStations_eq_flatMap, jsDedupeBy_of_nodup_keys hnodup]
  refine ⟨hflat, by rw [searchByStationsCore, hflat], ?_, ?_⟩
  · intro s _ hbad
    cases hfn : searchFn s with
    | error e => simp [stationContribution, hfn]
    | ok rs => rw [hfn] at hbad; simp [Except.isOk, Except.toBool] at hbad
  · intro r hr
    have h1 : r ∈ sortResultsByRelevance
        (removeDuplicateResults (fanoutStations searchFn stations)) query :=
      List.mem_of_mem_take hr
    have h2 : r ∈ removeDuplicateResults (fanoutStations searchFn stations) :=
      (jsMergeSort_perm _ _).mem_iff.mp h1
    have h3 : r ∈ fanoutStations searchFn stations :=
      (jsDedupeBy_sublist _ _).subset h2
    rw [hflat] at h3
    obtain ⟨s, hs, hr0⟩ := List.mem_flatMap.mp h3
    refine ⟨s, hs, ?_⟩
    cases hfn : searchFn s with
    | error e => simp [stationContribution, hfn] at hr0
    | ok rs =>
        simp only [stationContribution, hfn, List.mem_map] at hr0
        obtain ⟨r₀, hr₀, hrr⟩ := hr0
        exact ⟨rs, rfl, r₀, hr₀, hrr.symm⟩

/-- C4 witness: three stations A, B, C where B's search throws; the
result is the aggregation of A's and C's annotated contributions and
every hit is annotated with the name of a succeeding station. -/
theorem c4_partial_failure_tolerance_witness :
    searchByStationsCore
        (fun s => if s.placeId = "B" then
          .error { code := "NETWORK_ERROR", message := "down" }
        else
          .ok [{ placeId := "r_" ++ s.placeId, name := "店" ++ s.placeId
                 rating := 4, priceLevel := 1, types := [], vicinity := ""
                 photos := [], distance := none, nearestStation := none
                 googleMapsUrl := "" }])
        [{ placeId := "A", name := "A駅", location := { lat := 1, lng := 1 }, distance := 0 },
         { placeId := "B", name := "B駅", location := { lat := 2, lng := 2 }, distance := 0 },
         { placeId := "C", name := "C駅", location := { lat := 3, lng := 3 }, distance := 0 }]
        "ラーメン" =
      aggregateResults "ラーメン"
        ([{ placeId := "A", name := "A駅", location := { lat := 1, lng := 1 }, distance := 0 },
          { placeId := "B", name := "B駅", location := { lat := 2, lng := 2 }, distance := 0 },
          { placeId := "C", name := "C駅", location := { lat := 3, lng := 3 }, distance := 0 }].flatMap
          (stationContribution
            (fun s => if s.placeId = "B" then
              .error { code := "NETWORK_ERROR", message := "down" }
            else
              .ok [{ placeId := "r_" ++ s.placeId, name := "店" ++ s.placeId
                     rating := 4, priceLevel := 1, types := [], vicinity := ""
                     photos := [], distance := none, nearestStation := none
                     googleMapsUrl := "" }]))) ∧
    (fanoutStations
        (fun s => if s.placeId = "B" then
          .error { code := "NETWORK_ERROR", message := "down" }
        else
          .ok [{ placeId := "r_" ++ s.placeId, name := "店" ++ s.placeId
                 rating := 4, priceLevel := 1, types := [], vicinity := ""
                 photos := [], distance := none, nearestStation := none
                 googleMapsUrl := "" }])
        [{ placeId := "A", name := "A駅", location := { lat := 1, lng := 1 }, distance := 0 },
         { placeId := "B", name := "B駅", location := { lat := 2, lng := 2 }, distance := 0 },
         { placeId := "C", name := "C駅", location := { lat := 3, lng := 3 }, distance := 0 }]).map
      (fun r => r.nearestStation) = [some "A駅", some "C駅"] :=
  ⟨(c4_partial_failure_tolerance _ _ "ラーメン" (by decide)
      ⟨{ placeId := "B", name := "B駅", location := { lat := 2, lng := 2 }, distance := 0 },
        by decide, by decide⟩
      ⟨{ placeId := "A", name := "A駅", location := { lat := 1, lng := 1 }, distance := 0 },
        by decide, by decide⟩).2.1,
    by decide⟩

/-! The relevance comparator is intransitive (ratings 4, 4.08, 4.16 tie
pairwise through the 0.1 threshold but 4 vs 4.16 is decisive), so
`Array.prototype.sort` receives an inconsistent comparator on such hit
lists and ECMAScript leaves the resulting order implementation-defined;
`jsMergeSort` is a faithful embedding of the sort only where the
comparator is consistent. -/

/-! ## Claim C7 — the ranking comparator -/

/-- Modelled from the spec (§4.4 ranking rule 3), for comparison with
the source comparator: "a venue whose `name` contains (case-insensitively)
any of the original `queryTags` sorts before one that does not". -/
def specNameMatchesAnyTag (queryTags : List String) (r : RestaurantResult) :
    Bool :=
  queryTags.any (fun tag => jsIncludesLower r.name tag)

/-- C7 (amended): rating differences of at most 0.1 are ties and the
order is then decided by distance differences above 100 m (closer
first); among remaining ties a hit whose name contains, case-
insensitively, the **entire query string** sorts before one that does
not (individual query tags confer no preference — see the
counterexample), and a full tie preserves input order. -/
theorem c7_ranking_comparator (a b : RestaurantResult) (query : String) :
    (qabs (qsub a.rating b.rating) ≤ Rat.divInt 1 10 →
      qabs (qsub (a.distance.getD 0) (b.distance.getD 0)) > 100 →
      a.distance.getD 0 < b.distance.getD 0 →
      sortResultsByRelevance [b, a] query = [a, b]) ∧
    (qabs (qsub a.rating b.rating) ≤ Rat.divInt 1 10 →
      qabs (qsub (a.distance.getD 0) (b.distance.getD 0)) ≤ 100 →
      jsIncludesLower a.name query = true →
      jsIncludesLower b.name query = false →
      sortResultsByRelevance [b, a] query = [a, b]) ∧
    (compareByRelevance query a b = 0 →
      sortResultsByRelevance [a, b] query = [a, b]) := by
  have habs_comm : ∀ x y : ℚ, qabs (qsub x y) = qabs (qsub y x) := by
    intro x y
    rw [qabs_eq, qabs_eq, qsub_eq, qsub_eq, abs_sub_comm]
  refine ⟨?_, ?_, ?_⟩
  · intro hr hd hlt
    have hcmp : 0 < compareByRelevance query b a := by
      simp only [compareByRelevance]
      rw [if_neg (not_lt.mpr hr), if_pos (by rw [habs_comm]; exact hd)]
      rw [qsub_eq]
      exact sub_pos.mpr hlt
    rw [sortResultsByRelevance, jsMergeSort_pair]
    rw [if_neg (by simp [relevanceLe, not_le, hcmp])]
  · intro hr hd ha hb
    have hcmp : 0 < compareByRelevance query b a := by
      simp only [compareByRelevance]
      rw [if_neg (not_lt.mpr hr),
        if_neg (by rw [habs_comm]; exact not_lt.mpr hd), ha, hb]
      norm_num [Rat.divInt_eq_div]
    rw [sortResultsByRelevance, jsMergeSort_pair]
    rw [if_neg (by simp [relevanceLe, not_le, hcmp])]
  · intro hcmp
    rw [sortResultsByRelevance, jsMergeSort_pair]
    rw [if_pos (by simp [relevanceLe, hcmp])]

/-- C7 witness: ratings 4.05 vs 4.12 (difference below 0.1) are ordered
by distance — the hit at 50 m precedes the hit at 300 m although its
rating is lower. -/
theorem c7_ranking_comparator_witness :
    sortResultsByRelevance
      [{ placeId := "b", name := "凄い店", rating := Rat.divInt 412 100
         priceLevel := 1, types := [], vicinity := "", photos := []
         distance := some 300, nearestStation := none, googleMapsUrl := "" },
       { placeId := "a", name := "並の店", rating := Rat.divInt 405 100
         priceLevel := 1, types := [], vicinity := "", photos := []
         distance := some 50, nearestStation := none, googleMapsUrl := "" }]
      "ラーメン" =
      [{ placeId := "a", name := "並の店", rating := Rat.divInt 405 100
         priceLevel := 1, types := [], vicinity := "", photos := []
         distance := some 50, nearestStation := none, googleMapsUrl := "" },
       { placeId := "b", name := "凄い店", rating := Rat.divInt 412 100
         priceLevel := 1, types := [], vicinity := "", photos := []
         distance := some 300, nearestStation := none, googleMapsUrl := "" }] :=
  (c7_ranking_comparator _ _ "ラーメン").1 (by decide) (by decide) (by decide)

/-- C7 counterexample: with query tags `["udon", "soba"]` assembled into
the query string `"udon OR soba"`, a hit whose name contains the tag
`udon` (but of course not the whole query string) gets no preference
over one that matches nothing: the full-tie pair keeps its input order
instead of sorting the tag-matching hit first as the claim states. -/
theorem c7_counterexample :
    specNameMatchesAnyTag ["udon", "soba"]
      { placeId := "x", name := "Udon House", rating := 4, priceLevel := 1
        types := [], vicinity := "", photos := [], distance := some 100
        nearestStation := none, googleMapsUrl := "" } = true ∧
    specNameMatchesAnyTag ["udon", "soba"]
      { placeId := "y", name := "Zzz Diner", rating := 4, priceLevel := 1
        types := [], vicinity := "", photos := [], distance := some 100
        nearestStation := none, googleMapsUrl := "" } = false ∧
    sortResultsByRelevance
      [{ placeId := "y", name := "Zzz Diner", rating := 4, priceLevel := 1
         types := [], vicinity := "", photos := [], distance := some 100
         nearestStation := none, googleMapsUrl := "" },
       { placeId := "x", name := "Udon House", rating := 4, priceLevel := 1
         types := [], vicinity := "", photos := [], distance := some 100
         nearestStation := none, googleMapsUrl := "" }]
      "udon OR soba" =
      [{ placeId := "y", name := "Zzz Diner", rating := 4, priceLevel := 1
         types := [], vicinity := "", photos := [], distance := some 100
         nearestStation := none, googleMapsUrl := "" },
       { placeId := "x", name := "Udon House", rating := 4, priceLevel := 1
         types := [], vicinity := "", photos := [], distance := some 100
         nearestStation := none, googleMapsUrl := "" }] := by
  refine ⟨by decide, by decide, by decide⟩

/-! ## Helper lemmas for the station expansion -/

theorem extractStationsGo_mem (maxStations : ℕ) :
    ∀ (route : Route) (acc : List StationInfo) (s : StationInfo),
      s ∈ extractStationsGo maxStations route acc → s ∈ acc ∨ s.distance = 0 := by
  intro route
  induction route with
  | nil => intro acc s hs; exact Or.inl hs
  | cons step rest ih =>
      intro acc s hs
      match step with
      | none => exact ih acc s hs
      | some (dep, arr) =>
          have step1 : ∀ (l : List StationInfo) (st : TransitStop),
              s ∈ (if l.length < maxStations then
                l ++ (createStationInfoFromTransitStop st).toList else l) →
              s ∈ l ∨ s.distance = 0 := by
            intro l st h
            split at h
            · rcases List.mem_append.mp h with h | h
              · exact Or.inl h
              · simp only [createStationInfoFromTransitStop,
                  Option.toList_some, List.mem_singleton] at h
                exact Or.inr (by rw [h])
            · exact Or.inl h
          rcases ih _ s hs with hmem | h0
          · rcases step1 _ arr hmem with h | h
            · rcases step1 _ dep h with h' | h'
              · exact Or.inl h'
              · exact Or.inr h'
            · exact Or.inr h
          · exact Or.inr h0

theorem extractStationsFromRoute_distance (route : Route) (maxStations : ℕ) :
    ∀ s ∈ extractStationsFromRoute route maxStations, s.distance = 0 := by
  intro s hs
  rcases extractStationsGo_mem maxStations route [] s hs with h | h
  · cases h
  · exact h

theorem distLe_trans : ∀ a b c : StationInfo,
    decide (a.distance ≤ b.distance) = true →
    decide (b.distance ≤ c.distance) = true →
    decide (a.distance ≤ c.distance) = true := by
  intro a b c hab hbc
  simp only [decide_eq_true_eq] at *
  omega

theorem distLe_total : ∀ a b : StationInfo,
    (decide (a.distance ≤ b.distance) || decide (b.distance ≤ a.distance)) = true := by
  intro a b
  rcases Int.le_total a.distance b.distance with h | h <;> simp [h]

theorem removeDuplicateStations_length_pos (s : StationInfo)
    (rest : List StationInfo) :
    1 ≤ (removeDuplicateStations (s :: rest)).length := by
  rw [removeDuplicateStations, (jsMergeSort_perm _ _).length_eq]
  simp only [jsDedupeBy, jsDedupeByAux, List.not_mem_nil, if_neg]
  simp

theorem removeDuplicateStations_sorted (stations : List StationInfo) :
    List.Pairwise (fun a b : StationInfo => a.distance ≤ b.distance)
      (removeDuplicateStations stations) := by
  have h := jsMergeSort_sorted distLe_trans distLe_total
    (jsDedupeBy stationKey stations)
  rw [removeDuplicateStations]
  exact h.imp (fun hab => by simpa using hab)

theorem fallbackStationSearch_head (calcDist : DistFn) (env : DirectionsEnv)
    (centerStation : StationInfo) (stationCount : ℕ) :
    (fallbackStationSearch calcDist env centerStation stationCount).head? =
      some centerStation := by
  rw [fallbackStationSearch]
  match env.fallbackResults with
  | none => rfl
  | some results => simp [List.take_succ_cons]

theorem fallbackStationSearch_length (calcDist : DistFn) (env : DirectionsEnv)
    (centerStation : StationInfo) (stationCount : ℕ) :
    1 ≤ (fallbackStationSearch calcDist env centerStation stationCount).length ∧
    (fallbackStationSearch calcDist env centerStation stationCount).length ≤
      stationCount + 1 := by
  rw [fallbackStationSearch]
  match env.fallbackResults with
  | none => simp
  | some results =>
      constructor
      · simp [List.length_take]
      · simpa using List.length_take_le (stationCount + 1) _

/-! ## Claim C1 — shape of the station expansion -/

/-- C1 (amended): the expansion always returns between 1 and
`stationCount + 1` stations.  On the routed path the list is sorted
(non-strictly) ascending by the *stored* distances — under which every
routed candidate still carries its tentative `0`, so the start station
need not be first and ties abound; the start station is guaranteed first
only on the fallback path. -/
theorem c1_station_expansion_bounds (calcDist : DistFn) (env : DirectionsEnv)
    (startStation : StationInfo) (stationCount : ℕ) :
    1 ≤ (getStationsInRange calcDist env startStation stationCount).length ∧
    (getStationsInRange calcDist env startStation stationCount).length ≤
      stationCount + 1 ∧
    (env.routedThrows = false →
      List.Pairwise (fun a b : StationInfo => a.distance ≤ b.distance)
        (getStationsInRange calcDist env startStation stationCount)) ∧
    (env.routedThrows = true →
      (getStationsInRange calcDist env startStation stationCount).head? =
        some startStation) := by
  cases hthrow : env.routedThrows with
  | true =>
      simp only [getStationsInRange, hthrow, if_true]
      obtain ⟨h1, h2⟩ := fallbackStationSearch_length calcDist env startStation
        stationCount
      refine ⟨h1, h2, ?_, ?_⟩
      · intro hfalse
        exact absurd hfalse (by simp)
      · intro _
        exact fallbackStationSearch_head calcDist env startStation stationCount
  | false =>
      simp only [getStationsInRange, hthrow, Bool.false_eq_true, if_false]
      refine ⟨?_, ?_, ?_, ?_⟩
      · rw [List.length_take]
        have := removeDuplicateStations_length_pos startStation
          ((getDirectionsFromStation env).flatMap
            (fun route => extractStationsFromRoute route stationCount))
        omega
      · simpa using List.length_take_le (stationCount + 1) _
      · intro _
        exact (removeDuplicateStations_sorted _).sublist (List.take_sublist _ _)
      · intro htrue
        exact htrue.elim

/-- C1 witness: a routed expansion with no candidates, `stationCount = 2`. -/
theorem c1_station_expansion_bounds_witness :
    1 ≤ (getStationsInRange calculateDistance
      { nearby := .ok [], probes := fun _ => none, routedThrows := false
        fallbackResults := none }
      { placeId := "A", name := "A駅", location := { lat := 0, lng := 0 }
        distance := 200 } 2).length ∧
    List.Pairwise (fun a b : StationInfo => a.distance ≤ b.distance)
      (getStationsInRange calculateDistance
        { nearby := .ok [], probes := fun _ => none, routedThrows := false
          fallbackResults := none }
        { placeId := "A", name := "A駅", location := { lat := 0, lng := 0 }
          distance := 200 } 2) :=
  ⟨(c1_station_expansion_bounds calculateDistance _ _ 2).1,
    (c1_station_expansion_bounds calculateDistance _ _ 2).2.2.1 rfl⟩

/-- C1 counterexample: one successful probe yields two transit stops,
which keep their tentative distance 0 and therefore sort *before* the
start station (stored distance 200): the expansion's first element is
not the start station, and the remaining distances are tied rather than
strictly ascending. -/
theorem c1_counterexample :
    (getStationsInRange calculateDistance
      { nearby := .ok []
        probes := fun i => if i = 0 then
          some [some ({ place_id := some "B", name := "B駅"
                        location := { lat := 35, lng := 139 } },
                      { place_id := some "C", name := "C駅"
                        location := { lat := 35, lng := 140 } })]
          else none
        routedThrows := false
        fallbackResults := none }
      { placeId := "A", name := "A駅", location := { lat := 0, lng := 0 }
        distance := 200 } 2).head? ≠
      some { placeId := "A", name := "A駅"
             location := { lat := 0, lng := 0 }, distance := 200 } ∧
    (getStationsInRange calculateDistance
      { nearby := .ok []
        probes := fun i => if i = 0 then
          some [some ({ place_id := some "B", name := "B駅"
                        location := { lat := 35, lng := 139 } },
                      { place_id := some "C", name := "C駅"
                        location := { lat := 35, lng := 140 } })]
          else none
        routedThrows := false
        fallbackResults := none }
      { placeId := "A", name := "A駅", location := { lat := 0, lng := 0 }
        distance := 200 } 2).map (fun s => s.distance) = [0, 0, 200] := by
  refine ⟨by decide, by decide⟩

/-! ## Claim C3 — when the radial fallback runs -/

/-- C3 (amended): the radial fallback runs exactly when the routed phase
*throws*; a routed expansion that merely yields zero candidates returns
`[start]` directly without consulting the fallback search.  When the
fallback's own search fails it returns exactly `[start]`, and the
expansion never returns an empty list. -/
theorem c3_fallback_trigger (calcDist : DistFn) (env : DirectionsEnv)
    (startStation : StationInfo) (stationCount : ℕ) :
    (env.routedThrows = true →
      getStationsInRange calcDist env startStation stationCount =
        fallbackStationSearch calcDist env startStation stationCount) ∧
    (env.routedThrows = false →
      (getDirectionsFromStation env).flatMap
        (fun route => extractStationsFromRoute route stationCount) = [] →
      getStationsInRange calcDist env startStation stationCount =
        [startStation]) ∧
    (env.fallbackResults = none →
      fallbackStationSearch calcDist env startStation stationCount =
        [startStation]) ∧
    getStationsInRange calcDist env startStation stationCount ≠ [] := by
  refine ⟨?_, ?_, ?_, ?_⟩
  · intro h
    simp [getStationsInRange, h]
  · intro h hempty
    simp only [getStationsInRange, h, Bool.false_eq_true, if_false, hempty,
      removeDuplicateStations, jsDedupeBy, jsDedupeByAux, List.not_mem_nil,
      if_neg, jsMergeSort, msortGo]
    simp
  · intro h
    simp [fallbackStationSearch, h]
  · have hpos : 0 < (getStationsInRange calcDist env startStation
        stationCount).length := by
      cases hthrow : env.routedThrows with
      | true =>
          simp only [getStationsInRange, hthrow, if_true]
          exact (fallbackStationSearch_length calcDist env startStation
            stationCount).1
      | false =>
          simp only [getStationsInRange, hthrow, Bool.false_eq_true, if_false]
          rw [List.length_take]
          have := removeDuplicateStations_length_pos startStation
            ((getDirectionsFromStation env).flatMap
              (fun route => extractStationsFromRoute route stationCount))
          omega
    exact List.ne_nil_of_length_pos hpos

/-- C3 witness: an unreachable fallback environment (`none` response)
returns exactly the start station, and the routed result is non-empty. -/
theorem c3_fallback_trigger_witness :
    fallbackStationSearch calculateDistance
      { nearby := .ok [], probes := fun _ => none, routedThrows := false
        fallbackResults := none }
      { placeId := "A", name := "A駅", location := { lat := 0, lng := 0 }
        distance := 200 } 2 =
      [{ placeId := "A", name := "A駅", location := { lat := 0, lng := 0 }
         distance := 200 }] ∧
    getStationsInRange calculateDistance
      { nearby := .ok [], probes := fun _ => none, routedThrows := false
        fallbackResults := none }
      { placeId := "A", name := "A駅", location := { lat := 0, lng := 0 }
        distance := 200 } 2 ≠ [] :=
  ⟨(c3_fallback_trigger calculateDistance _ _ 2).2.2.1 rfl,
    (c3_fallback_trigger calculateDistance _ _ 2).2.2.2⟩

/-- C3 counterexample: the routed expansion succeeds with zero
candidates while the fallback search *would* return a second station;
the result is exactly `[start]` — the fallback is not invoked, contrary
to the claim's "returns zero candidate stations" trigger. -/
theorem c3_counterexample :
    getStationsInRange calculateDistance
      { nearby := .ok [], probes := fun _ => none, routedThrows := false
        fallbackResults := some [{ place_id := "X", name := "X駅"
                                   location := { lat := 1, lng := 1 } }] }
      { placeId := "A", name := "A駅", location := { lat := 0, lng := 0 }
        distance := 200 } 2 =
      [{ placeId := "A", name := "A駅", location := { lat := 0, lng := 0 }
         distance := 200 }] ∧
    (fallbackStationSearch calculateDistance
      { nearby := .ok [], probes := fun _ => none, routedThrows := false
        fallbackResults := some [{ place_id := "X", name := "X駅"
                                   location := { lat := 1, lng := 1 } }] }
      { placeId := "A", name := "A駅", location := { lat := 0, lng := 0 }
        distance := 200 } 2).length = 2 := by
  refine ⟨by decide, by decide⟩

/-! ## Claim C5 — result cap and deduplication per mode -/

theorem aggregateResults_length_le (query : String)
    (results : List RestaurantResult) :
    (aggregateResults query results).length ≤ 20 := by
  simpa [aggregateResults] using
    List.length_take_le 20 (sortResultsByRelevance
      (removeDuplicateResults results) query)

theorem aggregateResults_nodup_keys (query : String)
    (results : List RestaurantResult) :
    ((aggregateResults query results).map (fun r => r.placeId)).Nodup := by
  have hd : ((jsDedupeBy (fun r => r.placeId) results).map
      (fun r => r.placeId)).Nodup := jsDedupeBy_nodup_keys _ results
  have hs : ((jsMergeSort (relevanceLe query)
      (jsDedupeBy (fun r => r.placeId) results)).map
      (fun r => r.placeId)).Nodup :=
    (((jsMergeSort_perm _ _).map _).nodup_iff).mpr hd
  refine hs.sublist ?_
  simpa [aggregateResults, sortResultsByRelevance, removeDuplicateResults,
    List.map_take] using
    List.take_sublist 20 ((jsMergeSort (relevanceLe query)
      (jsDedupeBy (fun r => r.placeId) results)).map (fun r => r.placeId))

theorem processSearchResults_length_le (calcDist : DistFn)
    (places : List GooglePlace) (userLocation : Coord) :
    (processSearchResults calcDist places userLocation).length ≤ 20 := by
  rw [processSearchResults, (jsMergeSort_perm _ _).length_eq,
    List.length_map]
  simpa [PLACES_API_MAX_RESULTS] using
    List.length_take_le PLACES_API_MAX_RESULTS places

/-- C5 (amended): in STATION_RANGE mode the final list is capped at 20
and deduplicated by `placeId`.  In RADIUS mode the collaborator's
response is returned entirely unchanged — it is capped at 20 by the
collaborator's own `processSearchResults` (which also re-sorts by
computed distance, so the native order is *not* preserved), but no
deduplication happens anywhere on that path. -/
theorem c5_result_cap_dedup :
    (∀ (searchFn : StationInfo → Except ApiError (List RestaurantResult))
      (stations : List StationInfo) (query : String),
      (searchByStationsCore searchFn stations query).length ≤ 20 ∧
      ((searchByStationsCore searchFn stations query).map
        (fun r => r.placeId)).Nodup) ∧
    (∀ (calcDist : DistFn) (apiKey : String) (env : TextSearchEnv)
      (request : ExtendedPlacesSearchRequest),
      searchByRadius calcDist apiKey env request =
        searchByText calcDist apiKey env request.query request.location
          request.radius) ∧
    (∀ (calcDist : DistFn) (apiKey : String) (env : TextSearchEnv)
      (request : ExtendedPlacesSearchRequest)
      (response : PlacesSearchResponse),
      searchByRadius calcDist apiKey env request = .ok response →
      response.results.length ≤ 20) := by
  refine ⟨?_, fun _ _ _ _ => rfl, ?_⟩
  · intro searchFn stations query
    exact ⟨aggregateResults_length_le query _, aggregateResults_nodup_keys query _⟩
  · intro calcDist apiKey env request response hok
    rw [searchByRadius, searchByText] at hok
    split at hok
    · cases hok with
      | refl =>
          rw [getMockPlacesResponse]
          split
          · refine le_trans (List.length_filter_le _ _) (by simp)
          · simp
    · rw [runRetry3] at hok
      have hattempt : ∀ k, searchByTextAttempt calcDist env
          request.location k = .ok response → response.results.length ≤ 20 := by
        intro k hk
        rw [searchByTextAttempt] at hk
        split at hk
        · cases hk
        · split at hk
          · cases hk
          · cases hk with
            | refl => exact processSearchResults_length_le _ _ _
      split at hok
      · exact hattempt 1 (by cases hok; assumption)
      · split at hok
        · exact hattempt 2 (by cases hok; assumption)
        · split at hok
          · exact hattempt 3 (by cases hok; assumption)
          · cases hok

/-- C5 witness: the radius mode's mock response respects the cap. -/
theorem c5_result_cap_dedup_witness :
    (getMockPlacesResponse "ラーメン").results.length ≤ 20 :=
  (c5_result_cap_dedup).2.2 calculateDistance "test_key"
    (fun _ => .error { code := "NETWORK_ERROR", message := "down" })
    { location := { lat := 0, lng := 0 }, query := "ラーメン"
      radius := some 1000, stationCount := none }
    (getMockPlacesResponse "ラーメン") rfl

/-- A search response entry repeated under one `place_id`, for the C5
counterexample. -/
def dupPlace : GooglePlace :=
  { place_id := "dup", name := "同じ店", rating := none, price_level := none
    types := [], vicinity := "", photos := []
    location := { lat := 3, lng := 3 } }

def dupRequest : ExtendedPlacesSearchRequest :=
  { location := { lat := 0, lng := 0 }, query := "ラーメン"
    radius := some 1000, stationCount := none }

/-- C5 counterexample: in RADIUS mode the collaborator's response is
returned without any deduplication — a search response repeating one
`place_id` yields a final result with two hits of the same identity,
contradicting the claimed dedup/truncation pass and its invariant. -/
theorem c5_counterexample :
    searchByRadius calculateDistance "0123456789"
      (fun _ => .ok ("OK", [dupPlace, dupPlace])) dupRequest =
      .ok { results := processSearchResults calculateDistance
              [dupPlace, dupPlace] dupRequest.location
            status := "OK" } ∧
    ¬ ((processSearchResults calculateDistance [dupPlace, dupPlace]
        dupRequest.location).map (fun r => r.placeId)).Nodup := by
  constructor
  · rfl
  · intro hnodup
    have hperm : ((processSearchResults calculateDistance [dupPlace, dupPlace]
        dupRequest.location).map (fun r => r.placeId)).Perm
        ((([dupPlace, dupPlace].take PLACES_API_MAX_RESULTS).map
          (convertToRestaurantResult calculateDistance
            dupRequest.location)).map (fun r => r.placeId)) :=
      (jsMergeSort_perm _ _).map _
    have h2 : ((([dupPlace, dupPlace].take PLACES_API_MAX_RESULTS).map
        (convertToRestaurantResult calculateDistance
          dupRequest.location)).map (fun r => r.placeId)) =
        ["dup", "dup"] := rfl
    rw [h2] at hperm
    have hbad : (["dup", "dup"] : List String).Nodup := hperm.nodup_iff.mp hnodup
    simp at hbad

/-! ## Claim C2 — the distance invariant -/

theorem round_dist_bound (x : ℝ) : |((round x : ℤ) : ℝ) - x| ≤ 1 := by
  have h := abs_sub_round x
  rw [abs_sub_comm] at h
  linarith

theorem fallbackStationSearch_mem (calcDist : DistFn) (env : DirectionsEnv)
    (centerStation : StationInfo) (stationCount : ℕ) (s : StationInfo)
    (hs : s ∈ fallbackStationSearch calcDist env centerStation stationCount) :
    s = centerStation ∨
      s.distance = calcDist centerStation.location.lat
        centerStation.location.lng s.location.lat s.location.lng := by
  rw [fallbackStationSearch] at hs
  match henv : env.fallbackResults with
  | none =>
      rw [henv] at hs
      simp at hs
      exact Or.inl hs
  | some results =>
      rw [henv] at hs
      have hs' := List.mem_of_mem_take hs
      rcases List.mem_cons.mp hs' with h | h
      · exact Or.inl h
      · right
        obtain ⟨place, _, hplace⟩ := List.mem_map.mp h
        rw [← hplace]

theorem getStationsInRange_routed_mem (calcDist : DistFn)
    (env : DirectionsEnv) (startStation : StationInfo) (stationCount : ℕ)
    (s : StationInfo) (h : env.routedThrows = false)
    (hs : s ∈ getStationsInRange calcDist env startStation stationCount) :
    s = startStation ∨ s.distance = 0 := by
  rw [getStationsInRange] at hs
  simp only [h, Bool.false_eq_true, if_false] at hs
  have h1 := List.mem_of_mem_take hs
  rw [removeDuplicateStations] at h1
  have h2 := ((jsMergeSort_perm _ _).mem_iff).mp h1
  have h3 := (jsDedupeBy_sublist _ _).subset h2
  rcases List.mem_cons.mp h3 with h4 | h4
  · exact Or.inl h4
  · obtain ⟨route, _, hmem⟩ := List.mem_flatMap.mp h4
    exact Or.inr (extractStationsFromRoute_distance route stationCount s hmem)

/-- `calculateDistance` at longitudes 0° and 90° on the equator:
`a = 1/2`, `c = 2·arctan 1 = π/2`, distance `6371·(π/2)·1000`. -/
theorem haversine_090 : haversineMeters 0 0 0 90 = 3185500 * Real.pi := by
  rw [haversineMeters]
  have e0 : ((0 : ℚ) : ℝ) = 0 := by norm_num
  have e90 : ((90 : ℚ) : ℝ) = 90 := by norm_num
  rw [e0, e90]
  have hdLat : toRadians (0 - 0) = 0 := by
    rw [toRadians]; ring
  have hdLng : toRadians (90 - 0) = Real.pi / 2 := by
    rw [toRadians]; ring
  rw [hdLat, hdLng]
  have hsin0 : Real.sin (0 / 2) = 0 := by norm_num
  have hcos0 : Real.cos (toRadians 0) = 1 := by
    rw [toRadians]
    norm_num
  have hsin4 : Real.sin (Real.pi / 2 / 2) = Real.sqrt 2 / 2 := by
    rw [show Real.pi / 2 / 2 = Real.pi / 4 by ring, Real.sin_pi_div_four]
  rw [hsin0, hcos0, hsin4]
  have ha : (0 : ℝ) * 0 + 1 * 1 * (Real.sqrt 2 / 2) * (Real.sqrt 2 / 2) = 1 / 2 := by
    have h2 : Real.sqrt 2 * Real.sqrt 2 = 2 :=
      Real.mul_self_sqrt (by norm_num)
    field_simp
  rw [ha]
  have hhalf : (1 : ℝ) - 1 / 2 = 1 / 2 := by norm_num
  rw [hhalf]
  have hpos : 0 < Real.sqrt (1 / 2) := Real.sqrt_pos.mpr (by norm_num)
  have hat : atan2 (Real.sqrt (1 / 2)) (Real.sqrt (1 / 2)) = Real.pi / 4 := by
    rw [atan2, if_pos hpos, div_self (ne_of_gt hpos), Real.arctan_one]
  rw [hat]
  ring

theorem haversine_090_gt :
    (1 : ℝ) < |((0 : ℤ) : ℝ) - haversineMeters 0 0 0 90| := by
  rw [haversine_090]
  have hpi := Real.pi_gt_three
  have h0 : ((0 : ℤ) : ℝ) = 0 := by norm_num
  rw [h0, zero_sub, abs_neg, abs_of_pos (mul_pos (by norm_num) Real.pi_pos)]
  nlinarith

/-- C2 (amended): the stations produced by the nearest-station lookup
and by the radial fallback carry `calculateDistance` distances — within
1 m of the real haversine value, since the code stores the rounded
haversine itself.  Routed candidates are the exception: their distance
is the tentative `0` from `createStationInfoFromTransitStop` and is
never recomputed before the sort. -/
theorem c2_distance_invariant :
    (∀ (env : DirectionsEnv) (location : Coord) (s : StationInfo),
      findNearestStation calculateDistance env location = .ok s →
      s.distance = calculateDistance location.lat location.lng
        s.location.lat s.location.lng ∧
      |(s.distance : ℝ) - haversineMeters location.lat location.lng
        s.location.lat s.location.lng| ≤ 1) ∧
    (∀ (env : DirectionsEnv) (centerStation : StationInfo)
      (stationCount : ℕ) (s : StationInfo),
      s ∈ fallbackStationSearch calculateDistance env centerStation
        stationCount →
      s = centerStation ∨
        (s.distance = calculateDistance centerStation.location.lat
          centerStation.location.lng s.location.lat s.location.lng ∧
         |(s.distance : ℝ) - haversineMeters centerStation.location.lat
           centerStation.location.lng s.location.lat s.location.lng| ≤ 1)) ∧
    (∀ (env : DirectionsEnv) (startStation : StationInfo)
      (stationCount : ℕ) (s : StationInfo), env.routedThrows = false →
      s ∈ getStationsInRange calculateDistance env startStation stationCount →
      s = startStation ∨ s.distance = 0) := by
  refine ⟨?_, ?_, ?_⟩
  · intro env location s hok
    rw [findNearestStation] at hok
    match henv : env.nearby with
    | .error e => rw [henv] at hok; cases hok
    | .ok results =>
        rw [henv] at hok
        match results with
        | [] => cases hok
        | nearestPlace :: rest =>
            cases hok with
            | refl =>
                exact ⟨rfl, round_dist_bound _⟩
  · intro env centerStation stationCount s hs
    rcases fallbackStationSearch_mem calculateDistance env centerStation
      stationCount s hs with h | h
    · exact Or.inl h
    · refine Or.inr ⟨h, ?_⟩
      rw [h]
      exact round_dist_bound _
  · exact fun env startStation stationCount s h hs =>
      getStationsInRange_routed_mem calculateDistance env startStation
        stationCount s h hs

/-- C2 witness: a nearest-station lookup whose single result lies at
`(1, 1)` from origin `(0, 0)`. -/
theorem c2_distance_invariant_witness :
    ({ placeId := "P", name := "P駅", location := { lat := 1, lng := 1 }
       distance := calculateDistance 0 0 1 1 } : StationInfo).distance =
      calculateDistance 0 0 1 1 ∧
    |(({ placeId := "P", name := "P駅", location := { lat := 1, lng := 1 }
         distance := calculateDistance 0 0 1 1 } : StationInfo).distance : ℝ) -
      haversineMeters 0 0 1 1| ≤ 1 :=
  c2_distance_invariant.1
    { nearby := .ok [{ place_id := "P", name := "P駅"
                       location := { lat := 1, lng := 1 } }]
      probes := fun _ => none, routedThrows := false, fallbackResults := none }
    { lat := 0, lng := 0 } _ rfl

/-- C2 counterexample: a routed candidate at `(0°, 90°)` — a quarter of
the globe away from the start at `(0°, 0°)` — is returned with stored
distance 0, which is not within 1 m of the haversine distance
`3 185 500 π` m: no recomputation happens before sorting. -/
theorem c2_counterexample :
    ({ placeId := "B", name := "B駅", location := { lat := 0, lng := 90 }
       distance := 0 } : StationInfo) ∈
      getStationsInRange calculateDistance
        { nearby := .ok []
          probes := fun i => if i = 0 then
            some [some ({ place_id := some "B", name := "B駅"
                          location := { lat := 0, lng := 90 } },
                        { place_id := some "B", name := "B駅"
                          location := { lat := 0, lng := 90 } })]
            else none
          routedThrows := false
          fallbackResults := none }
        { placeId := "A", name := "A駅", location := { lat := 0, lng := 0 }
          distance := 5 } 1 ∧
    ¬(|((0 : ℤ) : ℝ) - haversineMeters 0 0 0 90| ≤ 1) := by
  constructor
  · decide
  · exact not_le.mpr haversine_090_gt
